import Mathlib

/-!
Shallow embedding of the `reto-2-python-generation` cloud-instance CLI
(`src/config.py`, `src/aws_client.py`, `src/instances_cli.py`, `src/main.py`).

Modelling conventions:
* Python dictionaries read from the environment are an `Env` record of
  `Option String` fields (`none` = variable absent).
* The EC2 `describe_instances` response is modelled by its schema: every
  key that the JMESPath expression touches is an `Option` field, `none`
  standing for a missing key, so that the missing-key behaviour of
  `jmespath.search` is represented.
* Exceptions are explicit: `Except` return values and a `PyError` type
  distinguishing `botocore` `ClientError` from other exceptions; a
  Python `try/except ClientError` clause catches only `.clientError`.
* Interactive input is a `List String` of stdin lines; terminal output
  is accumulated as a `List String` of `print` payloads (the prompt
  text passed to `input()` is not tracked).  Remote SDK calls are
  accumulated as a trace of `ApiCall` values, and the behaviour of the
  remote endpoint is an `EC2Client` record of response oracles.
-/

namespace CloudCLI

/-- Python character repetition as used for the section delimiter rules. -/
def repeatChar (n : Nat) (c : Char) : String :=
  String.mk (List.replicate n c)

/-- The 70-character `=` rule printed by the handlers in `instances_cli.py`. -/
def sep70 : String := repeatChar 70 '='

/-- The 50-character `=` rule printed by the menu code in `main.py`. -/
def sep50 : String := repeatChar 50 '='

/-- Python truthiness of an optional string: `None` and `""` are falsy. -/
def truthy : Option String → Bool
  | none => false
  | some s => !(s == "")

/-- Python `str.strip()`: drop leading and trailing whitespace. -/
def pyStrip (s : String) : String :=
  String.mk (((s.data.dropWhile Char.isWhitespace).reverse.dropWhile
    Char.isWhitespace).reverse)

/-- Python `str.lower()` (the inputs of interest are ASCII). -/
def pyLower (s : String) : String :=
  String.mk (s.data.map Char.toLower)

/-! ## Response model and extraction (`instances_cli.py`, lines 27-50) -/

/-- The `State` sub-record of an EC2 instance (`State.Name`). -/
structure StateRec where
  name : Option String
deriving DecidableEq

/-- The `Placement` sub-record of an EC2 instance
(`Placement.AvailabilityZone`). -/
structure PlacementRec where
  availabilityZone : Option String
deriving DecidableEq

/-- One raw instance record inside a reservation, restricted to the keys
touched by the JMESPath expression. -/
structure RawInstance where
  instanceId : Option String
  state : Option StateRec
  instanceType : Option String
  placement : Option PlacementRec
deriving DecidableEq

/-- One reservation record; `instances = none` models a reservation
dictionary without an `Instances` key. -/
structure Reservation where
  instances : Option (List RawInstance)
deriving DecidableEq

/-- A `describe_instances` response; `reservations = none` models a
response dictionary without a `Reservations` key (`extract({})`). -/
structure DescribeResponse where
  reservations : Option (List Reservation)
deriving DecidableEq

/-- The flat record produced by the multiselect hash
`{id: InstanceId, state: State.Name, type: InstanceType, az: Placement.AvailabilityZone}`:
exactly four fields, each `none` when the source key is missing. -/
structure InstanceSummary where
  id : Option String
  state : Option String
  type : Option String
  az : Option String
deriving DecidableEq

/-- The multiselect hash applied to one instance record: nested lookups
`State.Name` and `Placement.AvailabilityZone` give `none` when either
level is missing. -/
def projectInstance (inst : RawInstance) : InstanceSummary :=
  { id := inst.instanceId
  , state := inst.state.bind StateRec.name
  , type := inst.instanceType
  , az := inst.placement.bind PlacementRec.availabilityZone }

/-- Model of `jmespath.search("Reservations[].Instances[].\x7b...\x7d", response)`:
`none` models the `null` result returned when the `Reservations` key is
missing; otherwise the reservations are flattened in order, a
reservation without an `Instances` key contributing nothing. -/
def jmespath_search_instances (response : DescribeResponse) :
    Option (List InstanceSummary) :=
  match response.reservations with
  | none => none
  | some reservations =>
    some (reservations.flatMap fun r => (r.instances.getD []).map projectInstance)

/-- Embedding of `_extract_instances_from_response` (`instances_cli.py:27-50`):
runs the JMESPath query and returns `instances if instances else []`. -/
def _extract_instances_from_response (response : DescribeResponse) :
    List InstanceSummary :=
  match jmespath_search_instances response with
  | none => []
  | some instances => if instances.isEmpty then [] else instances

/-! ## Configuration (`config.py`) -/

/-- The process environment restricted to the four variables the program
reads; `none` models an unset variable. -/
structure Env where
  accessKeyId : Option String
  secretAccessKey : Option String
  sessionToken : Option String
  defaultRegion : Option String
deriving DecidableEq

/-- Embedding of `get_aws_region` (`config.py:8-19`):
`os.getenv("AWS_DEFAULT_REGION", "us-east-1")` — the default applies
only when the variable is absent. -/
def get_aws_region (env : Env) : String :=
  env.defaultRegion.getD "us-east-1"

/-- The credentials dictionary built by `get_aws_credentials`.
`aws_session_token = none` models the key being absent from the
dictionary (not present with an empty value). -/
structure Credentials where
  aws_access_key_id : String
  aws_secret_access_key : String
  region_name : String
  aws_session_token : Option String
deriving DecidableEq

/-- The `ValueError` message raised by `get_aws_credentials`. -/
def missingCredentialsMsg : String :=
  "AWS credentials not found. Please set AWS_ACCESS_KEY_ID and AWS_SECRET_ACCESS_KEY in your .env file."

/-- Embedding of `get_aws_credentials` (`config.py:22-72`): reads the three
credential variables, raises `ValueError` (modelled as `.error`) when
the access key or the secret key is absent or empty (Python
truthiness), otherwise builds the dictionary, adding
`aws_session_token` only when the token is truthy. -/
def get_aws_credentials (env : Env) : Except String Credentials :=
  let access_key := env.accessKeyId
  let secret_key := env.secretAccessKey
  let session_token := env.sessionToken
  if !truthy access_key || !truthy secret_key then
    .error missingCredentialsMsg
  else
    .ok
      { aws_access_key_id := access_key.getD ""
      , aws_secret_access_key := secret_key.getD ""
      , region_name := get_aws_region env
      , aws_session_token :=
          if truthy session_token then session_token else none }

/-! ## Exceptions, remote calls and handler runs (`instances_cli.py`) -/

/-- Python exceptions relevant to the handlers.  `clientError` models
`botocore.exceptions.ClientError` (the only type the handlers catch);
`otherError` models every other exception a remote call can raise
(e.g. connection-level `BotoCoreError`s); `eofError` models the
`EOFError` raised by `input()` on exhausted stdin. -/
inductive PyError where
  | clientError (msg : String)
  | eofError
  | otherError (msg : String)
deriving DecidableEq

/-- The text of `str(exc)` as interpolated into the `Details:` lines. -/
def PyError.str : PyError → String
  | .clientError msg => msg
  | .eofError => "EOF when reading a line"
  | .otherError msg => msg

/-- One entry of the `Filters` argument of `describe_instances`. -/
structure Filter where
  name : String
  values : List String
deriving DecidableEq

/-- The trace of remote SDK calls a handler issues. -/
inductive ApiCall where
  | describe_instances (filters : List Filter)
  | run_instances (imageId : String) (instanceType : String)
      (minCount : Nat) (maxCount : Nat)
  | stop_instances (instanceIds : List String)
  | start_instances (instanceIds : List String)
  | reboot_instances (instanceIds : List String)
  | terminate_instances (instanceIds : List String)
deriving DecidableEq

/-- The part of a `run_instances` response the code reads:
`response["Instances"][i]["InstanceId"]`. -/
structure RunResponse where
  instances : List String
deriving DecidableEq

/-- Behaviour oracle for the remote endpoint: for each SDK method, the
outcome of the single call a handler makes (`.error` = the call raised). -/
structure EC2Client where
  describe_instances : List Filter → Except PyError DescribeResponse
  run_instances : String → String → Nat → Nat → Except PyError RunResponse
  stop_instances : List String → Except PyError Unit
  start_instances : List String → Except PyError Unit
  reboot_instances : List String → Except PyError Unit
  terminate_instances : List String → Except PyError Unit

/-- The observable effects of one handler invocation: `print` payloads in
order, remote calls in order, remaining stdin, and the exception that
escaped the handler (`none` = the handler returned normally). -/
structure HandlerRun where
  prints : List String
  calls : List ApiCall
  rest : List String
  raised : Option PyError
deriving DecidableEq

/-- The retry message printed by `_prompt_non_empty` on a blank line. -/
def retryMsg : String := "Error: This value is required. Please try again."

/-- Embedding of `_prompt_non_empty` (`instances_cli.py:5-24`): reads stdin lines,
stripping each, printing `retryMsg` for every blank line, until a
non-empty value appears.  `.ok (value, printed, rest)` returns the
value, the retry messages printed on the way, and the unconsumed
stdin; `.error printed` models `EOFError` once stdin is exhausted. -/
def _prompt_non_empty : List String → Except (List String) (String × List String × List String)
  | [] => .error []
  | line :: rest =>
    let value := pyStrip line
    if value == "" then
      match _prompt_non_empty rest with
      | .error printed => .error (retryMsg :: printed)
      | .ok (v, printed, remaining) => .ok (v, retryMsg :: printed, remaining)
    else
      .ok (value, [], rest)

/-- Rendering of an optional field in the listing row.  (CPython would
raise on a `None` field because of the width format specifier; the
claims never exercise `None` fields in rows, so they are rendered as
the string `"None"` here.) -/
def fmtOpt : Option String → String
  | some s => s
  | none => "None"

/-- Left-justification as performed by a width format specifier. -/
def ljust (s : String) (w : Nat) : String :=
  s ++ repeatChar (w - s.length) ' '

/-- The per-instance row printed by `list_instances`
(`instances_cli.py:95-96`). -/
def formatRow (inst : InstanceSummary) : String :=
  "ID: " ++ ljust (fmtOpt inst.id) 20 ++ " State: " ++ ljust (fmtOpt inst.state) 12
    ++ " Type: " ++ ljust (fmtOpt inst.type) 12 ++ " AZ: " ++ fmtOpt inst.az

/-- The `Filters` argument built by `list_instances`
(`instances_cli.py:68-74`): one `instance-state-name` entry when the
filter is truthy, otherwise no filters. -/
def stateFilters (state_filter : Option String) : List Filter :=
  if truthy state_filter then
    [{ name := "instance-state-name", values := [state_filter.getD ""] }]
  else []

/-- Embedding of `list_instances` (`instances_cli.py:53-101`): builds the state
filter when `state_filter` is truthy, issues one `describe_instances`
call, prints the listing or the no-instances message; a `ClientError`
is caught and printed, any other exception escapes. -/
def list_instances (ec2_client : EC2Client) (state_filter : Option String)
    (stdin : List String) : HandlerRun :=
  let filters : List Filter := stateFilters state_filter
  match ec2_client.describe_instances filters with
  | .error (.clientError msg) =>
    { prints := ["\nError: Failed to list instances.", "Details: " ++ msg]
    , calls := [.describe_instances filters], rest := stdin, raised := none }
  | .error e =>
    { prints := [], calls := [.describe_instances filters]
    , rest := stdin, raised := some e }
  | .ok response =>
    let instances := _extract_instances_from_response response
    if instances.isEmpty then
      { prints :=
          [if truthy state_filter then
             "\nNo instances found in state: " ++ state_filter.getD ""
           else "\nNo instances found in this account or region."]
      , calls := [.describe_instances filters], rest := stdin, raised := none }
    else
      { prints :=
          ("\n" ++ sep70)
            :: (if truthy state_filter then
                  "Instances with state: " ++ state_filter.getD ""
                else "All Instances")
            :: sep70
            :: (instances.map formatRow ++ [sep70])
      , calls := [.describe_instances filters], rest := stdin, raised := none }

/-- The banner printed at the top of `create_instance`. -/
def createHeader : List String :=
  ["\n" ++ sep70, "Create EC2 Instance", sep70,
   "Note: Use Free Tier eligible options (t2.micro or t3.micro)", ""]

/-- Embedding of `create_instance` (`instances_cli.py:104-147`): prompts (re-prompting
until non-empty) for the AMI id and the instance type, issues one
`run_instances` call with `MinCount=1, MaxCount=1`, and reports the new
instance id `response["Instances"][0]["InstanceId"]`; a `ClientError`
is caught and printed, any other exception escapes (an empty
`Instances` list would raise `IndexError`). -/
def create_instance (ec2_client : EC2Client) (stdin : List String) : HandlerRun :=
  match _prompt_non_empty stdin with
  | .error printed =>
    { prints := createHeader ++ printed, calls := [], rest := [], raised := some .eofError }
  | .ok (ami_id, printed1, stdin1) =>
    match _prompt_non_empty stdin1 with
    | .error printed2 =>
      { prints := createHeader ++ printed1 ++ printed2, calls := []
      , rest := [], raised := some .eofError }
    | .ok (instance_type, printed2, stdin2) =>
      let call := ApiCall.run_instances ami_id instance_type 1 1
      match ec2_client.run_instances ami_id instance_type 1 1 with
      | .ok response =>
        match response.instances with
        | [] =>
          { prints := createHeader ++ printed1 ++ printed2, calls := [call]
          , rest := stdin2
          , raised := some (.otherError "list index out of range") }
        | instance_id :: _ =>
          { prints := createHeader ++ printed1 ++ printed2
              ++ ["\nSuccess: Instance created with ID: " ++ instance_id, sep70]
          , calls := [call], rest := stdin2, raised := none }
      | .error (.clientError msg) =>
        { prints := createHeader ++ printed1 ++ printed2
            ++ ["\nError: Failed to create instance.", "Details: " ++ msg, sep70]
        , calls := [call], rest := stdin2, raised := none }
      | .error e =>
        { prints := createHeader ++ printed1 ++ printed2, calls := [call]
        , rest := stdin2, raised := some e }

/-- Embedding of `stop_instance` (`instances_cli.py:150-174`). -/
def stop_instance (ec2_client : EC2Client) (stdin : List String) : HandlerRun :=
  let header := ["\n" ++ sep70, "Stop EC2 Instance", sep70]
  match _prompt_non_empty stdin with
  | .error printed =>
    { prints := header ++ printed, calls := [], rest := [], raised := some .eofError }
  | .ok (instance_id, printed1, stdin1) =>
    match ec2_client.stop_instances [instance_id] with
    | .ok _ =>
      { prints := header ++ printed1
          ++ ["\nSuccess: Stop request sent for instance " ++ instance_id, sep70]
      , calls := [.stop_instances [instance_id]], rest := stdin1, raised := none }
    | .error (.clientError msg) =>
      { prints := header ++ printed1
          ++ ["\nError: Failed to stop instance " ++ instance_id, "Details: " ++ msg, sep70]
      , calls := [.stop_instances [instance_id]], rest := stdin1, raised := none }
    | .error e =>
      { prints := header ++ printed1, calls := [.stop_instances [instance_id]]
      , rest := stdin1, raised := some e }

/-- Embedding of `start_instance` (`instances_cli.py:177-201`). -/
def start_instance (ec2_client : EC2Client) (stdin : List String) : HandlerRun :=
  let header := ["\n" ++ sep70, "Start EC2 Instance", sep70]
  match _prompt_non_empty stdin with
  | .error printed =>
    { prints := header ++ printed, calls := [], rest := [], raised := some .eofError }
  | .ok (instance_id, printed1, stdin1) =>
    match ec2_client.start_instances [instance_id] with
    | .ok _ =>
      { prints := header ++ printed1
          ++ ["\nSuccess: Start request sent for instance " ++ instance_id, sep70]
      , calls := [.start_instances [instance_id]], rest := stdin1, raised := none }
    | .error (.clientError msg) =>
      { prints := header ++ printed1
          ++ ["\nError: Failed to start instance " ++ instance_id, "Details: " ++ msg, sep70]
      , calls := [.start_instances [instance_id]], rest := stdin1, raised := none }
    | .error e =>
      { prints := header ++ printed1, calls := [.start_instances [instance_id]]
      , rest := stdin1, raised := some e }

/-- Embedding of `reboot_instance` (`instances_cli.py:204-228`). -/
def reboot_instance (ec2_client : EC2Client) (stdin : List String) : HandlerRun :=
  let header := ["\n" ++ sep70, "Reboot EC2 Instance", sep70]
  match _prompt_non_empty stdin with
  | .error printed =>
    { prints := header ++ printed, calls := [], rest := [], raised := some .eofError }
  | .ok (instance_id, printed1, stdin1) =>
    match ec2_client.reboot_instances [instance_id] with
    | .ok _ =>
      { prints := header ++ printed1
          ++ ["\nSuccess: Reboot request sent for instance " ++ instance_id, sep70]
      , calls := [.reboot_instances [instance_id]], rest := stdin1, raised := none }
    | .error (.clientError msg) =>
      { prints := header ++ printed1
          ++ ["\nError: Failed to reboot instance " ++ instance_id, "Details: " ++ msg, sep70]
      , calls := [.reboot_instances [instance_id]], rest := stdin1, raised := none }
    | .error e =>
      { prints := header ++ printed1, calls := [.reboot_instances [instance_id]]
      , rest := stdin1, raised := some e }

/-- The banner printed at the top of `terminate_instance`. -/
def terminateHeader : List String :=
  ["\n" ++ sep70, "Terminate EC2 Instance", sep70,
   "WARNING: This action cannot be undone!"]

/-- Embedding of `terminate_instance` (`instances_cli.py:231-270`): prompts for the
instance id, reads a confirmation line (`.strip().lower()`), cancels
with no remote call unless it equals `"yes"`, otherwise issues one
`terminate_instances` call on the singleton id list; a `ClientError`
is caught and printed, any other exception escapes. -/
def terminate_instance (ec2_client : EC2Client) (stdin : List String) : HandlerRun :=
  match _prompt_non_empty stdin with
  | .error printed =>
    { prints := terminateHeader ++ printed, calls := [], rest := []
    , raised := some .eofError }
  | .ok (instance_id, printed1, stdin1) =>
    match stdin1 with
    | [] =>
      { prints := terminateHeader ++ printed1, calls := [], rest := []
      , raised := some .eofError }
    | confLine :: stdin2 =>
      let confirmation := pyLower (pyStrip confLine)
      if !(confirmation == "yes") then
        { prints := terminateHeader ++ printed1 ++ ["\nTermination cancelled.", sep70]
        , calls := [], rest := stdin2, raised := none }
      else
        match ec2_client.terminate_instances [instance_id] with
        | .ok _ =>
          { prints := terminateHeader ++ printed1
              ++ ["\nSuccess: Terminate request sent for instance " ++ instance_id, sep70]
          , calls := [.terminate_instances [instance_id]], rest := stdin2, raised := none }
        | .error (.clientError msg) =>
          { prints := terminateHeader ++ printed1
              ++ ["\nError: Failed to terminate instance " ++ instance_id,
                  "Details: " ++ msg, sep70]
          , calls := [.terminate_instances [instance_id]], rest := stdin2, raised := none }
        | .error e =>
          { prints := terminateHeader ++ printed1
          , calls := [.terminate_instances [instance_id]], rest := stdin2, raised := some e }

/-! ## Menu layer (`main.py`) and client factory (`aws_client.py`) -/

/-- The known-state list of `handle_filter_by_state` (`main.py:52`). -/
def valid_states : List String :=
  ["pending", "running", "stopping", "stopped", "terminated"]

/-- The banner printed at the top of `handle_filter_by_state`. -/
def filterHeader : List String :=
  ["\n" ++ sep50, "Filter Instances by State", sep50, "Available states:",
   "  - pending", "  - running", "  - stopping", "  - stopped", "  - terminated"]

/-- Embedding of `handle_filter_by_state` (`main.py:32-58`): reads one line, strips
and lowercases it, rejects an empty result, warns (without blocking)
when the value is not in `valid_states`, then calls `list_instances`
with the value as the state filter. -/
def handle_filter_by_state (ec2_client : EC2Client) (stdin : List String) : HandlerRun :=
  match stdin with
  | [] =>
    { prints := filterHeader, calls := [], rest := [], raised := some .eofError }
  | line :: rest =>
    let state := pyLower (pyStrip line)
    if state == "" then
      { prints := filterHeader ++ ["Error: State cannot be empty."]
      , calls := [], rest := rest, raised := none }
    else
      let warn :=
        if valid_states.contains state then []
        else ["Warning: \x27" ++ state ++ "\x27 might not be a valid state.",
              "Proceeding anyway..."]
      let run := list_instances ec2_client (some state) rest
      { prints := filterHeader ++ warn ++ run.prints
      , calls := run.calls, rest := run.rest, raised := run.raised }

/-- Embedding of `print_menu` (`main.py:15-29`). -/
def print_menu : List String :=
  ["\n" ++ sep50, "Cloud Instance Manager", sep50,
   "1. List all instances", "2. Create new instance", "3. Stop instance",
   "4. Start instance", "5. Reboot instance", "6. Terminate instance",
   "7. Filter instances by state", "0. Exit", sep50]

/-- Outcome of `boto3.client("ec2", **credentials)`: success, a
`NoCredentialsError`, or a general `BotoCoreError` with a message. -/
inductive Boto3Result where
  | ok
  | noCredentialsError
  | botoCoreError (msg : String)
deriving DecidableEq

/-- What `create_ec2_client` did: either the client is ready or
`SystemExit(code)` was raised. -/
inductive StartupOutcome where
  | clientReady
  | systemExit (code : Nat)
deriving DecidableEq

/-- Observable behaviour of one `create_ec2_client` invocation. -/
structure StartupRun where
  prints : List String
  outcome : StartupOutcome
deriving DecidableEq

/-- The `NoCredentialsError` diagnostic of `create_ec2_client`. -/
def noCredentialsDiagnostic : String :=
  "AWS credentials not found. Please run \x27aws configure\x27 or set environment variables."

/-- Embedding of `create_ec2_client` (`aws_client.py:6-47`): resolves credentials
and constructs the SDK client (`boto3` being the construction oracle);
each of the three failure kinds prints its own diagnostic line and
raises `SystemExit(1)`. -/
def create_ec2_client (env : Env) (boto3 : Credentials → Boto3Result) : StartupRun :=
  match get_aws_credentials env with
  | .error exc =>
    { prints := ["Configuration error: " ++ exc], outcome := .systemExit 1 }
  | .ok credentials =>
    match boto3 credentials with
    | .ok => { prints := [], outcome := .clientReady }
    | .noCredentialsError =>
      { prints := [noCredentialsDiagnostic], outcome := .systemExit 1 }
    | .botoCoreError exc =>
      { prints := ["Unexpected error while creating EC2 client: " ++ exc]
      , outcome := .systemExit 1 }

/-- Accumulated behaviour of the read-evaluate-print loop of `main`. -/
structure LoopRun where
  prints : List String
  calls : List ApiCall
  handlersRun : List String
deriving DecidableEq

/-- Option dispatch of the loop body (`main.py:77-90`): the handler run
for a menu option, tagged with the handler's name, or `none` for an
unrecognized option. -/
def dispatch (ec2_client : EC2Client) (option : String) (stdin : List String) :
    Option (String × HandlerRun) :=
  if option == "1" then some ("list_instances", list_instances ec2_client none stdin)
  else if option == "2" then some ("create_instance", create_instance ec2_client stdin)
  else if option == "3" then some ("stop_instance", stop_instance ec2_client stdin)
  else if option == "4" then some ("start_instance", start_instance ec2_client stdin)
  else if option == "5" then some ("reboot_instance", reboot_instance ec2_client stdin)
  else if option == "6" then some ("terminate_instance", terminate_instance ec2_client stdin)
  else if option == "7" then some ("handle_filter_by_state", handle_filter_by_state ec2_client stdin)
  else none

/-- The `while True` loop of `main` (`main.py:71-104`): print the menu,
read an option, dispatch; an exception escaping a handler is caught by
the loop-level `except Exception`, printed as an unexpected error, and
the loop continues.  The recursion is driven by a fuel argument that
`main` instantiates with the stdin length: every iteration consumes at
least the option line, so the fuel never runs out before stdin does.
(When stdin is exhausted the model ends the loop, whereas the Python
process would keep catching `EOFError` forever; no claim concerns that
state.)  `KeyboardInterrupt` is a signal and is not modelled. -/
def main_loop (ec2_client : EC2Client) : Nat → List String → LoopRun
  | 0, _ => { prints := [], calls := [], handlersRun := [] }
  | _ + 1, [] => { prints := [], calls := [], handlersRun := [] }
  | fuel + 1, optLine :: rest =>
    let option := pyStrip optLine
    if option == "0" then
      { prints := print_menu ++ ["\nExiting Cloud Instance Manager. Goodbye!"]
      , calls := [], handlersRun := [] }
    else
      match dispatch ec2_client option rest with
      | none =>
        let tail := main_loop ec2_client fuel rest
        { prints := print_menu
            ++ ("Error: \x27" ++ option ++ "\x27 is not a valid option.") :: tail.prints
        , calls := tail.calls, handlersRun := tail.handlersRun }
      | some (handlerName, run) =>
        let caught :=
          match run.raised with
          | none => []
          | some e => ["\nUnexpected error: " ++ e.str,
                       "Please try again or contact support."]
        let tail := main_loop ec2_client fuel run.rest
        { prints := print_menu ++ run.prints ++ caught ++ tail.prints
        , calls := run.calls ++ tail.calls
        , handlersRun := handlerName :: tail.handlersRun }

/-- Observable behaviour of one whole process run of `main`.
`exitCode` is the process exit status: `main` never re-raises
`SystemExit`, so a return from `main` ends the process with status 0. -/
structure MainRun where
  prints : List String
  calls : List ApiCall
  handlersRun : List String
  exitCode : Nat
deriving DecidableEq

/-- Embedding of `main` (`main.py:61-104`): builds the client; `except SystemExit:
return` swallows a startup failure, so the process ends with exit
status 0 either way; only when startup succeeds does the loop run. -/
def main (env : Env) (boto3 : Credentials → Boto3Result) (ec2_client : EC2Client)
    (stdin : List String) : MainRun :=
  let startup := create_ec2_client env boto3
  match startup.outcome with
  | .systemExit _ =>
    { prints := startup.prints, calls := [], handlersRun := [], exitCode := 0 }
  | .clientReady =>
    let loop := main_loop ec2_client stdin.length stdin
    { prints := startup.prints ++ loop.prints, calls := loop.calls
    , handlersRun := loop.handlersRun, exitCode := 0 }

/-! ## Concrete fixtures used by witnesses and counterexamples -/

/-- A response with no reservations key at all: `extract(\x7b\x7d)`. -/
def emptyResponse : DescribeResponse := { reservations := none }

/-- A client whose every call succeeds and whose listing is empty. -/
def okClient : EC2Client :=
  { describe_instances := fun _ => .ok { reservations := some [] }
  , run_instances := fun _ _ _ _ => .ok { instances := ["i-0abc"] }
  , stop_instances := fun _ => .ok ()
  , start_instances := fun _ => .ok ()
  , reboot_instances := fun _ => .ok ()
  , terminate_instances := fun _ => .ok () }

/-- A client whose every call raises a non-`ClientError` exception. -/
def brokenClient : EC2Client :=
  { describe_instances := fun _ => .error (.otherError "connection reset")
  , run_instances := fun _ _ _ _ => .error (.otherError "connection reset")
  , stop_instances := fun _ => .error (.otherError "connection reset")
  , start_instances := fun _ => .error (.otherError "connection reset")
  , reboot_instances := fun _ => .error (.otherError "connection reset")
  , terminate_instances := fun _ => .error (.otherError "connection reset") }

/-- A client whose every call raises a `ClientError`. -/
def apiErrorClient : EC2Client :=
  { describe_instances := fun _ => .error (.clientError "AccessDenied")
  , run_instances := fun _ _ _ _ => .error (.clientError "AccessDenied")
  , stop_instances := fun _ => .error (.clientError "AccessDenied")
  , start_instances := fun _ => .error (.clientError "AccessDenied")
  , reboot_instances := fun _ => .error (.clientError "AccessDenied")
  , terminate_instances := fun _ => .error (.clientError "AccessDenied") }

/-- An environment with no variable set. -/
def emptyEnv : Env :=
  { accessKeyId := none, secretAccessKey := none
  , sessionToken := none, defaultRegion := none }

/-- The environment of the spec scenario: both keys set, nothing else. -/
def basicEnv : Env :=
  { accessKeyId := some "A", secretAccessKey := some "B"
  , sessionToken := none, defaultRegion := none }

/-- The credentials dictionary `get_aws_credentials` builds for `basicEnv`. -/
def basicCreds : Credentials :=
  { aws_access_key_id := "A", aws_secret_access_key := "B"
  , region_name := "us-east-1", aws_session_token := none }

/-- An environment with keys, a session token and a region. -/
def tokenEnv : Env :=
  { accessKeyId := some "A", secretAccessKey := some "B"
  , sessionToken := some "T", defaultRegion := some "eu-west-1" }

/-- The credentials dictionary `get_aws_credentials` builds for `tokenEnv`. -/
def tokenCreds : Credentials :=
  { aws_access_key_id := "A", aws_secret_access_key := "B"
  , region_name := "eu-west-1", aws_session_token := some "T" }

/-- A fully populated running instance record. -/
def rawInstance1 : RawInstance :=
  { instanceId := some "i-1", state := some { name := some "running" }
  , instanceType := some "t2.micro"
  , placement := some { availabilityZone := some "us-east-1a" } }

/-- A fully populated stopped instance record. -/
def rawInstance2 : RawInstance :=
  { instanceId := some "i-2", state := some { name := some "stopped" }
  , instanceType := some "t3.micro"
  , placement := some { availabilityZone := some "us-east-1b" } }

/-- Two reservations, each holding one instance. -/
def twoReservationResponse : DescribeResponse :=
  { reservations := some
      [{ instances := some [rawInstance1] }, { instances := some [rawInstance2] }] }

/-! ## Helper lemmas -/

/-- A non-empty string is truthy. -/
theorem truthy_some_true {s : String} (h : s ≠ "") : truthy (some s) = true := by
  simp [truthy, h]

/-- The prompt loop `_prompt_non_empty` skips any run of blank lines and returns the
stripped first non-blank line, printing one retry message per blank. -/
theorem prompt_skips_blanks :
    ∀ (pre : List String) (line : String) (rest : List String),
      (∀ l ∈ pre, pyStrip l = "") → pyStrip line ≠ "" →
      _prompt_non_empty (pre ++ line :: rest)
        = .ok (pyStrip line, pre.map fun _ => retryMsg, rest)
  | [], line, rest, _, hline => by
    simp [_prompt_non_empty, hline]
  | blank :: pre, line, rest, hpre, hline => by
    have hb : pyStrip blank = "" := hpre blank (by simp)
    have ih := prompt_skips_blanks pre line rest
      (fun l hl => hpre l (by simp [hl])) hline
    simp [_prompt_non_empty, hb, ih]

/-- Every `list_instances` run issues exactly one `describe_instances`
call, carrying the filters built from the state filter. -/
theorem list_instances_calls (ec2_client : EC2Client) (sf : Option String)
    (stdin : List String) :
    (list_instances ec2_client sf stdin).calls
      = [.describe_instances (stateFilters sf)] := by
  unfold list_instances
  rcases h : ec2_client.describe_instances (stateFilters sf) with e | r
  · cases e <;> simp only [h]
  · simp only [h]
    split <;> rfl

/-! ## Claim theorems -/

/-- C1: `_extract_instances_from_response` flattens the instances of
all reservations in reservation-then-instance order, projecting each
to the four-field record `id`/`state`/`type`/`az` taken from the
identifier, nested state name, instance type, and nested availability
zone; on two reservations of one instance each the result is the
corresponding 2-element sequence in order. -/
theorem c1_extract_flattens_in_order :
    (∀ response : DescribeResponse,
        _extract_instances_from_response response
          = (response.reservations.getD []).flatMap
              (fun r => (r.instances.getD []).map projectInstance)) ∧
    _extract_instances_from_response twoReservationResponse
      = [{ id := some "i-1", state := some "running", type := some "t2.micro"
         , az := some "us-east-1a" },
         { id := some "i-2", state := some "stopped", type := some "t3.micro"
         , az := some "us-east-1b" }] := by
  constructor
  · intro response
    rcases h : response.reservations with _ | l
    · simp [_extract_instances_from_response, jmespath_search_instances, h]
    · simp only [_extract_instances_from_response, jmespath_search_instances, h,
        Option.getD_some]
      split
      · next he => exact (List.isEmpty_iff.mp he).symm
      · rfl
  · decide

/-- C2: `_extract_instances_from_response` is a total function (it
returns a list on every input), and a missing reservations key, an
empty reservation list, and reservations with only empty instance
lists each yield the empty list. -/
theorem c2_extract_total_on_empty_shapes :
    (∀ response : DescribeResponse,
        ∃ result : List InstanceSummary,
          _extract_instances_from_response response = result) ∧
    _extract_instances_from_response { reservations := none } = [] ∧
    _extract_instances_from_response { reservations := some [] } = [] ∧
    _extract_instances_from_response
      { reservations := some [{ instances := some [] }] } = [] :=
  ⟨fun _ => ⟨_, rfl⟩, rfl, rfl, rfl⟩

/-- C3: credential resolution fails with the missing-credentials
`ValueError` whenever the access key or the secret key is absent or
empty; with both present and non-empty it succeeds, the region being
the environment's region value when set and `"us-east-1"` when the
region variable is absent. -/
theorem c3_credentials_required_and_region_default (env : Env) :
    ((env.accessKeyId = none ∨ env.accessKeyId = some "" ∨
      env.secretAccessKey = none ∨ env.secretAccessKey = some "") →
        get_aws_credentials env = .error missingCredentialsMsg) ∧
    (∀ a b, env.accessKeyId = some a → a ≠ "" →
        env.secretAccessKey = some b → b ≠ "" →
        ∃ c, get_aws_credentials env = .ok c ∧
          (∀ r, env.defaultRegion = some r → c.region_name = r) ∧
          (env.defaultRegion = none → c.region_name = "us-east-1")) := by
  constructor
  · rintro (h | h | h | h) <;> simp [get_aws_credentials, truthy, h]
  · intro a b ha hane hb hbne
    have h1 : truthy env.accessKeyId = true := by rw [ha]; exact truthy_some_true hane
    have h2 : truthy env.secretAccessKey = true := by rw [hb]; exact truthy_some_true hbne
    refine ⟨{ aws_access_key_id := env.accessKeyId.getD ""
            , aws_secret_access_key := env.secretAccessKey.getD ""
            , region_name := get_aws_region env
            , aws_session_token :=
                if truthy env.sessionToken then env.sessionToken else none },
      ?_, ?_, ?_⟩
    · simp [get_aws_credentials, h1, h2]
    · intro r hr
      simp [get_aws_region, hr]
    · intro hr
      simp [get_aws_region, hr]

/-- Witness for C3: on the empty environment resolution fails; on the
two-key environment of the spec scenario it succeeds with the default
region. -/
theorem c3_witness :
    get_aws_credentials emptyEnv = .error missingCredentialsMsg ∧
    get_aws_credentials basicEnv = .ok basicCreds ∧
    basicCreds.region_name = "us-east-1" := by
  refine ⟨(c3_credentials_required_and_region_default emptyEnv).1 (Or.inl rfl), ?_, ?_⟩
  · obtain ⟨c, hc, -, hdef⟩ :=
      (c3_credentials_required_and_region_default basicEnv).2 "A" "B" rfl
        (by decide) rfl (by decide)
    have hcb : c = basicCreds :=
      Except.ok.inj (hc.symm.trans (rfl : get_aws_credentials basicEnv = .ok basicCreds))
    rw [← hcb]
    exact hc
  · obtain ⟨c, hc, -, hdef⟩ :=
      (c3_credentials_required_and_region_default basicEnv).2 "A" "B" rfl
        (by decide) rfl (by decide)
    have hcb : c = basicCreds :=
      Except.ok.inj (hc.symm.trans (rfl : get_aws_credentials basicEnv = .ok basicCreds))
    rw [← hcb]
    exact hdef rfl

/-- C4: in a successfully resolved credentials dictionary the
`aws_session_token` key is present exactly when the session-token
variable is present and non-empty; when absent or empty the key is
omitted, not set to an empty value. -/
theorem c4_session_token_iff (env : Env) (c : Credentials)
    (h : get_aws_credentials env = .ok c) :
    (c.aws_session_token.isSome = true ↔
      ∃ t, env.sessionToken = some t ∧ t ≠ "") ∧
    ((env.sessionToken = none ∨ env.sessionToken = some "") →
      c.aws_session_token = none) ∧
    (∀ t, env.sessionToken = some t → t ≠ "" → c.aws_session_token = some t) := by
  have hc : c.aws_session_token
      = if truthy env.sessionToken then env.sessionToken else none := by
    simp only [get_aws_credentials] at h
    split at h
    · simp at h
    · injection h with h2
      rw [← h2]
  rcases hs : env.sessionToken with _ | t
  · rw [hs] at hc
    simp only [truthy, Bool.false_eq_true, if_neg] at hc
    refine ⟨?_, ?_, ?_⟩ <;> simp [hc, hs]
  · rw [hs] at hc
    by_cases ht : t = ""
    · subst ht
      simp only [truthy] at hc
      simp at hc
      refine ⟨?_, ?_, ?_⟩ <;> simp [hc, hs]
    · rw [truthy_some_true ht] at hc
      simp only [if_pos] at hc
      refine ⟨?_, ?_, ?_⟩ <;> simp [hc, hs, ht]

/-- Witness for C4: `tokenEnv` resolves to `tokenCreds`, whose session
token is present and equals the environment's token. -/
theorem c4_witness :
    get_aws_credentials tokenEnv = .ok tokenCreds ∧
    tokenCreds.aws_session_token = some "T" := by
  refine ⟨rfl, ?_⟩
  exact (c4_session_token_iff tokenEnv tokenCreds rfl).2.2 "T" rfl (by decide)

/-- C5: with a non-blank instance-id line, the terminate handler issues
exactly one terminate call on the singleton list of that id when the
stripped, lowercased confirmation equals `"yes"` (so the match is
case-insensitive), and issues zero remote calls and prints the
cancellation message for any other confirmation. -/
theorem c5_terminate_requires_confirmation (ec2_client : EC2Client)
    (idLine confLine : String) (rest : List String)
    (hid : pyStrip idLine ≠ "") :
    (pyLower (pyStrip confLine) = "yes" →
      (terminate_instance ec2_client (idLine :: confLine :: rest)).calls
        = [.terminate_instances [pyStrip idLine]]) ∧
    (pyLower (pyStrip confLine) ≠ "yes" →
      (terminate_instance ec2_client (idLine :: confLine :: rest)).calls = [] ∧
      "\nTermination cancelled."
        ∈ (terminate_instance ec2_client (idLine :: confLine :: rest)).prints) := by
  have hp := prompt_skips_blanks [] idLine (confLine :: rest) (by simp) hid
  simp only [List.nil_append, List.map_nil] at hp
  constructor
  · intro hyes
    rcases hr : ec2_client.terminate_instances [pyStrip idLine] with e | u
    · cases e <;> simp [terminate_instance, hp, hyes, hr]
    · simp [terminate_instance, hp, hyes, hr]
  · intro hno
    constructor
    · simp [terminate_instance, hp, hno]
    · simp [terminate_instance, hp, hno]

/-- Witness for C5: identifier `i-x` with confirmation `YES` issues the
one terminate call; with confirmation `no` it issues none and prints
the cancellation message. -/
theorem c5_witness :
    (terminate_instance okClient ["i-x", "YES"]).calls
      = [.terminate_instances ["i-x"]] ∧
    (terminate_instance okClient ["i-x", "no"]).calls = [] ∧
    "\nTermination cancelled." ∈ (terminate_instance okClient ["i-x", "no"]).prints := by
  refine ⟨?_, ?_, ?_⟩
  · have h := (c5_terminate_requires_confirmation okClient "i-x" "YES" []
      (by decide)).1 (by decide)
    rw [show pyStrip "i-x" = "i-x" from by decide] at h
    exact h
  · exact ((c5_terminate_requires_confirmation okClient "i-x" "no" []
      (by decide)).2 (by decide)).1
  · exact ((c5_terminate_requires_confirmation okClient "i-x" "no" []
      (by decide)).2 (by decide)).2

/-- C10: an input line that strips to the empty string makes the
filter-by-state entry point print the empty-state error and return at
once: no remote call, no exception, no fall-through to an unfiltered
listing. -/
theorem c10_empty_state_rejected (ec2_client : EC2Client) (line : String)
    (rest : List String) (h : pyStrip line = "") :
    handle_filter_by_state ec2_client (line :: rest)
      = { prints := filterHeader ++ ["Error: State cannot be empty."]
        , calls := [], rest := rest, raised := none } := by
  have hstate : pyLower (pyStrip line) = "" := by rw [h]; rfl
  simp [handle_filter_by_state, hstate]

/-- Witness for C10: a whitespace-only line is rejected with zero
remote calls. -/
theorem c10_witness :
    handle_filter_by_state okClient ["   ", "x"]
      = { prints := filterHeader ++ ["Error: State cannot be empty."]
        , calls := [], rest := ["x"], raised := none } :=
  c10_empty_state_rejected okClient "   " ["x"] (by decide)

/-- C8 counterexample: on the entered line `"RUNNING"` — non-empty and
not in the known-state list — the handler prints no warning at all
(its prints are exactly the header plus the empty-listing message),
and the filter value passed through is the normalized `"running"`,
not the entered string. -/
theorem c8_counterexample :
    "RUNNING" ≠ "" ∧
    "RUNNING" ∉ valid_states ∧
    (handle_filter_by_state okClient ["RUNNING"]).prints
      = filterHeader ++ ["\nNo instances found in state: running"] ∧
    "Warning: \x27RUNNING\x27 might not be a valid state."
      ∉ (handle_filter_by_state okClient ["RUNNING"]).prints ∧
    "Warning: \x27running\x27 might not be a valid state."
      ∉ (handle_filter_by_state okClient ["RUNNING"]).prints ∧
    (handle_filter_by_state okClient ["RUNNING"]).calls
      = [.describe_instances
          [{ name := "instance-state-name", values := ["running"] }]] := by
  decide

/-- C8 (amended): for every entered line whose stripped, lowercased
form is non-empty and not in the known-state list, the handler prints
the warning and the proceeding message and still issues the one list
query with that normalized form as the filter value. -/
theorem c8_unknown_state_warns_and_proceeds (ec2_client : EC2Client)
    (line : String) (rest : List String)
    (hne : pyLower (pyStrip line) ≠ "")
    (hnotin : pyLower (pyStrip line) ∉ valid_states) :
    ("Warning: \x27" ++ pyLower (pyStrip line) ++ "\x27 might not be a valid state.")
      ∈ (handle_filter_by_state ec2_client (line :: rest)).prints ∧
    "Proceeding anyway..."
      ∈ (handle_filter_by_state ec2_client (line :: rest)).prints ∧
    (handle_filter_by_state ec2_client (line :: rest)).calls
      = [.describe_instances
          [{ name := "instance-state-name"
           , values := [pyLower (pyStrip line)] }]] := by
  have hcontains : valid_states.contains (pyLower (pyStrip line)) = false := by
    simpa using hnotin
  refine ⟨?_, ?_, ?_⟩
  · simp [handle_filter_by_state, hne, hcontains, hnotin]
  · simp [handle_filter_by_state, hne, hcontains, hnotin]
  · simp [handle_filter_by_state, hne, hcontains, list_instances_calls,
      stateFilters, truthy_some_true hne]

/-- Witness for C8 (amended): the entered line `"foo"` warns and still
issues the filtered list call. -/
theorem c8_witness :
    ("Warning: \x27" ++ pyLower (pyStrip "foo") ++ "\x27 might not be a valid state.")
      ∈ (handle_filter_by_state okClient ["foo"]).prints ∧
    "Proceeding anyway..." ∈ (handle_filter_by_state okClient ["foo"]).prints ∧
    (handle_filter_by_state okClient ["foo"]).calls
      = [.describe_instances
          [{ name := "instance-state-name", values := [pyLower (pyStrip "foo")] }]] :=
  c8_unknown_state_warns_and_proceeds okClient "foo" [] (by decide) (by decide)

/-- C9: the create handler re-prompts past any run of blank lines for
both the AMI id and the instance type, then issues exactly one launch
call with the two stripped values and `MinCount = MaxCount = 1`; when
that call succeeds it prints the new instance id taken from the first
element of the response's instance list. -/
theorem c9_create_prompts_and_launches_one (ec2_client : EC2Client)
    (pre1 : List String) (amiLine : String) (pre2 : List String)
    (typeLine : String) (rest : List String)
    (h1 : ∀ l ∈ pre1, pyStrip l = "") (ha : pyStrip amiLine ≠ "")
    (h2 : ∀ l ∈ pre2, pyStrip l = "") (ht : pyStrip typeLine ≠ "") :
    (create_instance ec2_client (pre1 ++ amiLine :: (pre2 ++ typeLine :: rest))).calls
      = [.run_instances (pyStrip amiLine) (pyStrip typeLine) 1 1] ∧
    (∀ response newId tl,
      ec2_client.run_instances (pyStrip amiLine) (pyStrip typeLine) 1 1
          = .ok response →
      response.instances = newId :: tl →
      ("\nSuccess: Instance created with ID: " ++ newId)
        ∈ (create_instance ec2_client
            (pre1 ++ amiLine :: (pre2 ++ typeLine :: rest))).prints) := by
  have hp1 := prompt_skips_blanks pre1 amiLine (pre2 ++ typeLine :: rest) h1 ha
  have hp2 := prompt_skips_blanks pre2 typeLine rest h2 ht
  constructor
  · rcases hr : ec2_client.run_instances (pyStrip amiLine) (pyStrip typeLine) 1 1
      with e | resp
    · cases e <;> simp [create_instance, hp1, hp2, hr]
    · rcases hi : resp.instances with _ | ⟨newId, tl⟩ <;>
        simp [create_instance, hp1, hp2, hr, hi]
  · intro resp newId tl hr hi
    simp [create_instance, hp1, hp2, hr, hi]

/-- Witness for C9: a blank line, then `ami-1`, then ` t2.micro ` (with
surrounding whitespace) launch one instance and report `i-0abc`. -/
theorem c9_witness :
    (create_instance okClient (["" ] ++ "ami-1" :: ([] ++ " t2.micro " :: []))).calls
      = [.run_instances "ami-1" "t2.micro" 1 1] ∧
    ("\nSuccess: Instance created with ID: " ++ "i-0abc")
      ∈ (create_instance okClient (["" ] ++ "ami-1" :: ([] ++ " t2.micro " :: []))).prints := by
  have h := c9_create_prompts_and_launches_one okClient [""] "ami-1" []
    " t2.micro " [] (by decide) (by decide) (by decide) (by decide)
  rw [show pyStrip "ami-1" = "ami-1" from by decide,
      show pyStrip " t2.micro " = "t2.micro" from by decide] at h
  exact ⟨h.1, h.2 { instances := ["i-0abc"] } "i-0abc" [] rfl rfl⟩

/-- C6 counterexample: a remote-call failure that is not a
`ClientError` (here a connection-level error raised by the one
`stop_instances` call) is not caught inside the handler — it escapes
past the handler boundary instead of being converted to a printed
message and a normal return. -/
theorem c6_counterexample :
    (stop_instance brokenClient ["i-1"]).calls = [.stop_instances ["i-1"]] ∧
    (stop_instance brokenClient ["i-1"]).raised
      = some (.otherError "connection reset") ∧
    ¬ (stop_instance brokenClient ["i-1"]).raised = none ∧
    ¬ ("Details: " ++ "connection reset") ∈ (stop_instance brokenClient ["i-1"]).prints := by
  decide

/-- C6 (amended): for every command handler, a `ClientError` raised by
its single remote call is caught inside the handler, printed with the
operation name and the error detail, and the handler returns normally;
failures of other exception types escape the handler (and are caught
by the loop-level `except Exception`). -/
theorem c6_client_errors_caught_in_handlers (ec2_client : EC2Client) (msg : String) :
    (∀ state_filter stdin,
      ec2_client.describe_instances (stateFilters state_filter)
          = .error (.clientError msg) →
      (list_instances ec2_client state_filter stdin).raised = none ∧
      "\nError: Failed to list instances."
        ∈ (list_instances ec2_client state_filter stdin).prints ∧
      ("Details: " ++ msg) ∈ (list_instances ec2_client state_filter stdin).prints) ∧
    (∀ amiLine typeLine rest, pyStrip amiLine ≠ "" → pyStrip typeLine ≠ "" →
      ec2_client.run_instances (pyStrip amiLine) (pyStrip typeLine) 1 1
          = .error (.clientError msg) →
      (create_instance ec2_client (amiLine :: typeLine :: rest)).raised = none ∧
      "\nError: Failed to create instance."
        ∈ (create_instance ec2_client (amiLine :: typeLine :: rest)).prints ∧
      ("Details: " ++ msg)
        ∈ (create_instance ec2_client (amiLine :: typeLine :: rest)).prints) ∧
    (∀ idLine rest, pyStrip idLine ≠ "" →
      ec2_client.stop_instances [pyStrip idLine] = .error (.clientError msg) →
      (stop_instance ec2_client (idLine :: rest)).raised = none ∧
      ("\nError: Failed to stop instance " ++ pyStrip idLine)
        ∈ (stop_instance ec2_client (idLine :: rest)).prints ∧
      ("Details: " ++ msg) ∈ (stop_instance ec2_client (idLine :: rest)).prints) ∧
    (∀ idLine rest, pyStrip idLine ≠ "" →
      ec2_client.start_instances [pyStrip idLine] = .error (.clientError msg) →
      (start_instance ec2_client (idLine :: rest)).raised = none ∧
      ("\nError: Failed to start instance " ++ pyStrip idLine)
        ∈ (start_instance ec2_client (idLine :: rest)).prints ∧
      ("Details: " ++ msg) ∈ (start_instance ec2_client (idLine :: rest)).prints) ∧
    (∀ idLine rest, pyStrip idLine ≠ "" →
      ec2_client.reboot_instances [pyStrip idLine] = .error (.clientError msg) →
      (reboot_instance ec2_client (idLine :: rest)).raised = none ∧
      ("\nError: Failed to reboot instance " ++ pyStrip idLine)
        ∈ (reboot_instance ec2_client (idLine :: rest)).prints ∧
      ("Details: " ++ msg) ∈ (reboot_instance ec2_client (idLine :: rest)).prints) ∧
    (∀ idLine confLine rest, pyStrip idLine ≠ "" →
      pyLower (pyStrip confLine) = "yes" →
      ec2_client.terminate_instances [pyStrip idLine] = .error (.clientError msg) →
      (terminate_instance ec2_client (idLine :: confLine :: rest)).raised = none ∧
      ("\nError: Failed to terminate instance " ++ pyStrip idLine)
        ∈ (terminate_instance ec2_client (idLine :: confLine :: rest)).prints ∧
      ("Details: " ++ msg)
        ∈ (terminate_instance ec2_client (idLine :: confLine :: rest)).prints) := by
  refine ⟨?_, ?_, ?_, ?_, ?_, ?_⟩
  · intro state_filter stdin hcall
    refine ⟨?_, ?_, ?_⟩ <;> simp [list_instances, hcall]
  · intro amiLine typeLine rest ha ht hcall
    have hp1 := prompt_skips_blanks [] amiLine (typeLine :: rest) (by simp) ha
    have hp2 := prompt_skips_blanks [] typeLine rest (by simp) ht
    simp only [List.nil_append, List.map_nil] at hp1 hp2
    refine ⟨?_, ?_, ?_⟩ <;> simp [create_instance, hp1, hp2, hcall]
  · intro idLine rest hid hcall
    have hp := prompt_skips_blanks [] idLine rest (by simp) hid
    simp only [List.nil_append, List.map_nil] at hp
    refine ⟨?_, ?_, ?_⟩ <;> simp [stop_instance, hp, hcall]
  · intro idLine rest hid hcall
    have hp := prompt_skips_blanks [] idLine rest (by simp) hid
    simp only [List.nil_append, List.map_nil] at hp
    refine ⟨?_, ?_, ?_⟩ <;> simp [start_instance, hp, hcall]
  · intro idLine rest hid hcall
    have hp := prompt_skips_blanks [] idLine rest (by simp) hid
    simp only [List.nil_append, List.map_nil] at hp
    refine ⟨?_, ?_, ?_⟩ <;> simp [reboot_instance, hp, hcall]
  · intro idLine confLine rest hid hyes hcall
    have hp := prompt_skips_blanks [] idLine (confLine :: rest) (by simp) hid
    simp only [List.nil_append, List.map_nil] at hp
    refine ⟨?_, ?_, ?_⟩ <;> simp [terminate_instance, hp, hyes, hcall]

/-- Witness for C6 (amended): against a client whose calls raise
`ClientError AccessDenied`, the list and stop handlers return normally
and print the operation name and the detail. -/
theorem c6_witness :
    (list_instances apiErrorClient none []).raised = none ∧
    "\nError: Failed to list instances." ∈ (list_instances apiErrorClient none []).prints ∧
    ("Details: " ++ "AccessDenied") ∈ (list_instances apiErrorClient none []).prints ∧
    (stop_instance apiErrorClient ["i-1"]).raised = none ∧
    ("\nError: Failed to stop instance " ++ pyStrip "i-1")
      ∈ (stop_instance apiErrorClient ["i-1"]).prints ∧
    ("Details: " ++ "AccessDenied") ∈ (stop_instance apiErrorClient ["i-1"]).prints := by
  obtain ⟨hlist, -, hstop, -, -, -⟩ :=
    c6_client_errors_caught_in_handlers apiErrorClient "AccessDenied"
  obtain ⟨l1, l2, l3⟩ := hlist none [] rfl
  obtain ⟨s1, s2, s3⟩ := hstop "i-1" [] (by decide) rfl
  exact ⟨l1, l2, l3, s1, s2, s3⟩

/-- C7 counterexample: with no credentials in the environment, the
factory raises `SystemExit(1)` after its single diagnostic line, but
`main` catches `SystemExit` and returns, so the process exit status is
0, not 1 (no handler runs and no remote call is issued). -/
theorem c7_counterexample :
    (create_ec2_client emptyEnv (fun _ => .ok)).outcome = .systemExit 1 ∧
    (main emptyEnv (fun _ => .ok) okClient ["1", "0"]).prints
      = ["Configuration error: " ++ missingCredentialsMsg] ∧
    (main emptyEnv (fun _ => .ok) okClient ["1", "0"]).handlersRun = [] ∧
    (main emptyEnv (fun _ => .ok) okClient ["1", "0"]).calls = [] ∧
    (main emptyEnv (fun _ => .ok) okClient ["1", "0"]).exitCode = 0 ∧
    ¬ (main emptyEnv (fun _ => .ok) okClient ["1", "0"]).exitCode = 1 := by
  decide

/-- C7 (amended): each of the three startup failure kinds — missing
credentials, authentication discovery failure, client-construction
failure — makes the factory print exactly one diagnostic line with
kind-distinguishing wording and raise `SystemExit(1)`; `main` catches
it and returns, so no handler runs, no remote call is issued, and the
process exits with status 0. -/
theorem c7_startup_failure_diagnosed_no_handler_runs
    (env : Env) (boto3 : Credentials → Boto3Result) (ec2_client : EC2Client)
    (stdin : List String) :
    (∀ m, get_aws_credentials env = .error m →
      create_ec2_client env boto3
          = { prints := ["Configuration error: " ++ m], outcome := .systemExit 1 } ∧
      main env boto3 ec2_client stdin
          = { prints := ["Configuration error: " ++ m], calls := []
            , handlersRun := [], exitCode := 0 }) ∧
    (∀ c, get_aws_credentials env = .ok c → boto3 c = .noCredentialsError →
      create_ec2_client env boto3
          = { prints := [noCredentialsDiagnostic], outcome := .systemExit 1 } ∧
      main env boto3 ec2_client stdin
          = { prints := [noCredentialsDiagnostic], calls := []
            , handlersRun := [], exitCode := 0 }) ∧
    (∀ c m, get_aws_credentials env = .ok c → boto3 c = .botoCoreError m →
      create_ec2_client env boto3
          = { prints := ["Unexpected error while creating EC2 client: " ++ m]
            , outcome := .systemExit 1 } ∧
      main env boto3 ec2_client stdin
          = { prints := ["Unexpected error while creating EC2 client: " ++ m]
            , calls := [], handlersRun := [], exitCode := 0 }) := by
  refine ⟨?_, ?_, ?_⟩
  · intro m hm
    have hc : create_ec2_client env boto3
        = { prints := ["Configuration error: " ++ m], outcome := .systemExit 1 } := by
      simp [create_ec2_client, hm]
    exact ⟨hc, by simp [main, hc]⟩
  · intro c hc hb
    have hcr : create_ec2_client env boto3
        = { prints := [noCredentialsDiagnostic], outcome := .systemExit 1 } := by
      simp [create_ec2_client, hc, hb]
    exact ⟨hcr, by simp [main, hcr]⟩
  · intro c m hc hb
    have hcr : create_ec2_client env boto3
        = { prints := ["Unexpected error while creating EC2 client: " ++ m]
          , outcome := .systemExit 1 } := by
      simp [create_ec2_client, hc, hb]
    exact ⟨hcr, by simp [main, hcr]⟩

/-- Witness for C7 (amended): the three failure kinds at concrete
environments and construction oracles. -/
theorem c7_witness :
    create_ec2_client emptyEnv (fun _ => .ok)
        = { prints := ["Configuration error: " ++ missingCredentialsMsg]
          , outcome := .systemExit 1 } ∧
    main emptyEnv (fun _ => .ok) okClient []
        = { prints := ["Configuration error: " ++ missingCredentialsMsg]
          , calls := [], handlersRun := [], exitCode := 0 } ∧
    create_ec2_client basicEnv (fun _ => .noCredentialsError)
        = { prints := [noCredentialsDiagnostic], outcome := .systemExit 1 } ∧
    create_ec2_client basicEnv (fun _ => .botoCoreError "boom")
        = { prints := ["Unexpected error while creating EC2 client: " ++ "boom"]
          , outcome := .systemExit 1 } := by
  obtain ⟨h1, h2⟩ := (c7_startup_failure_diagnosed_no_handler_runs emptyEnv
    (fun _ => .ok) okClient []).1 missingCredentialsMsg rfl
  obtain ⟨h3, -⟩ := (c7_startup_failure_diagnosed_no_handler_runs basicEnv
    (fun _ => .noCredentialsError) okClient []).2.1 basicCreds rfl rfl
  obtain ⟨h4, -⟩ := (c7_startup_failure_diagnosed_no_handler_runs basicEnv
    (fun _ => .botoCoreError "boom") okClient []).2.2 basicCreds "boom" rfl rfl
  exact ⟨h1, h2, h3, h4⟩

end CloudCLI
